import Mathlib

/-!
Shallow embedding of the user-service authentication code
(src/user_service/src: models/auth.py, services/auth_service.py,
routes/auth.py, schemas/auth.py).

The SQLAlchemy store is modelled as a `Db` record of row lists; a commit
of added rows is an append, a mutation of a fetched row is an in-place
update of the first matching row (primary keys and the unique
`token_hash` column make the first match the row the ORM object denotes).
Wall-clock time (`datetime.now(timezone.utc)`) is passed explicitly as a
natural number `now`.  JWTs are modelled abstractly by their decoded
content: the `sub` claim plus the unique `jti` that flask_jwt_extended
places in every freshly minted token; the `next_jti` counter of the store
models that freshness.  The sha256 hex digest of a serialized token is
modelled by the token itself (the digest is collision-free, so it
determines the token).  bcrypt hashing is modelled as an injective tagged
encoding of the password; the salt affects no control flow studied here.
-/

namespace UserService

/-- Permission map of a role: a Python dict from category name to action
list (column `Role.permissions`, type JSON). -/
abbrev Permissions := List (String × List String)

/-- Row of table `users` (models/auth.py, class User). -/
structure User where
  id : Nat
  email : String
  username : String
  password_hash : String
  first_name : Option String := none
  last_name : Option String := none
  is_active : Bool := true
  is_verified : Bool := false
  created_at : Nat := 0
  updated_at : Nat := 0
deriving DecidableEq, Repr

/-- Row of table `roles` (models/auth.py, class Role). -/
structure Role where
  id : Nat
  name : String
  description : Option String := none
  permissions : Permissions := []
  created_at : Nat := 0
deriving DecidableEq, Repr

/-- Row of table `user_roles` (models/auth.py, class UserRole). -/
structure UserRole where
  user_id : Nat
  role_id : Nat
  assigned_at : Nat := 0
deriving DecidableEq, Repr

/-- Decoded content of a JWT refresh token: the `sub` identity claim and
the unique `jti` id flask_jwt_extended puts in every token it creates. -/
structure JwtToken where
  sub : Nat
  jti : Nat
deriving DecidableEq, Repr

/-- Model of `hashlib.sha256(token.encode()).hexdigest()`: the digest is
collision-free, hence identified with the token it digests. -/
def sha256_hexdigest (t : JwtToken) : JwtToken := t

/-- Row of table `refresh_tokens` (models/auth.py, class RefreshToken). -/
structure RefreshToken where
  user_id : Nat
  token_hash : JwtToken
  expires_at : Nat
  is_revoked : Bool := false
  created_at : Nat := 0
deriving DecidableEq, Repr

/-- RefreshToken.is_expired: `datetime.now(timezone.utc) > self.expires_at`. -/
def RefreshToken.is_expired (t : RefreshToken) (now : Nat) : Bool :=
  now > t.expires_at

/-- RefreshToken.is_valid: `not self.is_revoked and not self.is_expired()`. -/
def RefreshToken.is_valid (t : RefreshToken) (now : Nat) : Bool :=
  !t.is_revoked && !(t.is_expired now)

/-- RefreshToken.revoke: sets `is_revoked = True` on the fetched row. -/
def RefreshToken.revoke (t : RefreshToken) : RefreshToken :=
  { t with is_revoked := true }

/-- Model of `bcrypt.hashpw`: an injective tagged encoding of the
password (the salt affects no control flow verified here). -/
def bcrypt_hashpw (password : String) : String :=
  "bcrypt$" ++ password

/-- Model of `bcrypt.checkpw(password, hash)`. -/
def bcrypt_checkpw (password hash : String) : Bool :=
  hash == bcrypt_hashpw password

/-- User.set_password. -/
def User.set_password (u : User) (password : String) : User :=
  { u with password_hash := bcrypt_hashpw password }

/-- User.check_password. -/
def User.check_password (u : User) (password : String) : Bool :=
  bcrypt_checkpw password u.password_hash

/-- The relational store: one list per table, plus counters modelling the
freshness of generated uuid4 primary keys and of JWT `jti` ids. -/
structure Db where
  users : List User := []
  roles : List Role := []
  user_roles : List UserRole := []
  refresh_tokens : List RefreshToken := []
  next_id : Nat := 0
  next_jti : Nat := 0
deriving DecidableEq, Repr

/-- User.get_roles: the roles joined through the `user_roles` table. -/
def Db.get_roles (db : Db) (u : User) : List Role :=
  (db.user_roles.filter (fun ur => ur.user_id == u.id)).filterMap
    (fun ur => db.roles.find? (fun r => r.id == ur.role_id))

/-- User.has_role: `any(role.name == role_name for role in self.get_roles())`. -/
def Db.has_role (db : Db) (u : User) (role_name : String) : Bool :=
  (db.get_roles u).any (fun role => role.name == role_name)

/-- User.has_permission: `permission in role.permissions` for some role,
which in Python is membership among the dict KEYS of the permission map. -/
def Db.has_permission (db : Db) (u : User) (permission : String) : Bool :=
  (db.get_roles u).any (fun role =>
    role.permissions.any (fun kv => kv.1 == permission))

/-- Decoded content of a JWT access token created by
`create_access_token(identity=user.id, additional_claims=...)`. -/
structure AccessToken where
  sub : Nat
  email : String
  username : String
  roles : List String
  jti : Nat
deriving DecidableEq, Repr

/-- Builds the access token with the additional claims used at login and
refresh (email, username, role names). -/
def create_access_token (db : Db) (user : User) (jti : Nat) : AccessToken :=
  { sub := user.id
    email := user.email
    username := user.username
    roles := (db.get_roles user).map (fun r => r.name)
    jti := jti }

/-- Replaces the first element satisfying `p` by its image under `f`;
models an in-place ORM mutation of the first row a query returned. -/
def updateFirst (p : α → Bool) (f : α → α) : List α → List α
  | [] => []
  | x :: xs => if p x then f x :: xs else x :: updateFirst p f xs

/-- Validated payload of UserCreateSchema. -/
structure UserCreate where
  email : String
  username : String
  password : String
  first_name : Option String := none
  last_name : Option String := none
deriving DecidableEq, Repr

/-- Validated payload of LoginRequestSchema. -/
structure LoginRequest where
  email : String
  password : String
deriving DecidableEq, Repr

/-- Result of AuthService.register_user. -/
inductive RegisterResult
  | ok (user : User)
  | err (msg : String)
deriving DecidableEq, Repr

/-- Result of AuthService.authenticate_user and refresh_access_token:
either a pair of freshly minted tokens or an error message. -/
inductive TokenResult
  | ok (access_token : AccessToken) (refresh_token : JwtToken)
  | err (msg : String)
deriving DecidableEq, Repr

/-- Result of the message-only service operations. -/
inductive SimpleResult
  | ok (msg : String)
  | err (msg : String)
deriving DecidableEq, Repr

/-- Result of RoleService.create_role. -/
inductive RoleResult
  | ok (role : Role)
  | err (msg : String)
deriving DecidableEq, Repr

namespace AuthService

/-- AuthService.register_user (services/auth_service.py lines 14-56). -/
def register_user (db : Db) (user_data : UserCreate) (now : Nat) :
    RegisterResult × Db :=
  match db.users.find? (fun u =>
      u.email == user_data.email || u.username == user_data.username) with
  | some existing_user =>
    if existing_user.email == user_data.email then
      (.err "Email already registered", db)
    else
      (.err "Username already taken", db)
  | none =>
    let user : User :=
      { id := db.next_id
        email := user_data.email
        username := user_data.username
        password_hash := bcrypt_hashpw user_data.password
        first_name := user_data.first_name
        last_name := user_data.last_name
        created_at := now
        updated_at := now }
    let db1 : Db :=
      { db with users := db.users ++ [user], next_id := db.next_id + 1 }
    match db.roles.find? (fun r => r.name == "user") with
    | some default_role =>
      (.ok user,
        { db1 with
          user_roles := db1.user_roles ++ [⟨user.id, default_role.id, now⟩] })
    | none => (.ok user, db1)

/-- AuthService.authenticate_user (services/auth_service.py lines 58-104). -/
def authenticate_user (db : Db) (login_data : LoginRequest) (now : Nat) :
    TokenResult × Db :=
  match db.users.find? (fun u => u.email == login_data.email) with
  | none => (.err "Invalid email or password", db)
  | some user =>
    if !(user.check_password login_data.password) then
      (.err "Invalid email or password", db)
    else if !user.is_active then
      (.err "Account is deactivated", db)
    else
      let access_token := create_access_token db user db.next_jti
      let refresh_token : JwtToken := { sub := user.id, jti := db.next_jti + 1 }
      let row : RefreshToken :=
        { user_id := user.id
          token_hash := sha256_hexdigest refresh_token
          expires_at := now + 7 * 86400
          created_at := now }
      (.ok access_token refresh_token,
        { db with refresh_tokens := db.refresh_tokens ++ [row],
                  next_jti := db.next_jti + 2 })

/-- AuthService.refresh_access_token (services/auth_service.py lines
106-163): decode the token, look the stored row up by (user_id,
token_hash), validate, check the user, then revoke the old row and
persist a fresh one. -/
def refresh_access_token (db : Db) (refresh_token : JwtToken) (now : Nat) :
    TokenResult × Db :=
  let user_id := refresh_token.sub
  let rt_hash := sha256_hexdigest refresh_token
  match db.refresh_tokens.find? (fun r =>
      r.user_id == user_id && r.token_hash == rt_hash) with
  | none => (.err "Invalid or expired refresh token", db)
  | some stored_token =>
    if !(stored_token.is_valid now) then
      (.err "Invalid or expired refresh token", db)
    else
      match db.users.find? (fun u => u.id == user_id) with
      | none => (.err "User not found or inactive", db)
      | some user =>
        if !user.is_active then
          (.err "User not found or inactive", db)
        else
          let access_token := create_access_token db user db.next_jti
          let new_refresh_token : JwtToken :=
            { sub := user.id, jti := db.next_jti + 1 }
          let new_row : RefreshToken :=
            { user_id := user.id
              token_hash := sha256_hexdigest new_refresh_token
              expires_at := now + 7 * 86400
              created_at := now }
          (.ok access_token new_refresh_token,
            { db with
              refresh_tokens := updateFirst (fun r =>
                    r.user_id == user_id && r.token_hash == rt_hash)
                  RefreshToken.revoke db.refresh_tokens ++ [new_row],
              next_jti := db.next_jti + 2 })

/-- AuthService.update_user_password (services/auth_service.py lines
187-206). -/
def update_user_password (db : Db) (user_id : Nat)
    (current_password new_password : String) (now : Nat) :
    SimpleResult × Db :=
  match db.users.find? (fun u => u.id == user_id) with
  | none => (.err "User not found", db)
  | some user =>
    if !(user.check_password current_password) then
      (.err "Current password is incorrect", db)
    else
      (.ok "Password updated successfully",
        { db with
          users := updateFirst (fun u => u.id == user_id)
              (fun u => { u.set_password new_password with updated_at := now })
              db.users })

/-- The three default role specs of create_default_roles: name,
description, permission map. -/
def default_role_specs : List (String × String × Permissions) :=
  [ ("admin", "Administrator with full system access",
      [("users", ["create", "read", "update", "delete"]),
       ("roles", ["create", "read", "update", "delete"]),
       ("system", ["manage", "configure"])]),
    ("user", "Standard user with basic access",
      [("profile", ["read", "update"]),
       ("llm", ["use"]),
       ("analytics", ["view"])]),
    ("analyst", "Data analyst with analytics access",
      [("profile", ["read", "update"]),
       ("analytics", ["create", "read", "update", "delete"]),
       ("reports", ["create", "read", "update", "delete"])]) ]

/-- The seeding loop of create_default_roles: for each spec, insert a new
role only when no role of that name exists. -/
def seed_roles : List (String × String × Permissions) → Db → Db
  | [], db => db
  | spec :: rest, db =>
    match db.roles.find? (fun r => r.name == spec.1) with
    | some _ => seed_roles rest db
    | none =>
      seed_roles rest
        { db with
          roles := db.roles ++
              [{ id := db.next_id
                 name := spec.1
                 description := some spec.2.1
                 permissions := spec.2.2 }],
          next_id := db.next_id + 1 }

/-- AuthService.create_default_roles (services/auth_service.py lines
208-257). -/
def create_default_roles (db : Db) : SimpleResult × Db :=
  (.ok "Default roles created successfully", seed_roles default_role_specs db)

/-- True when a role row exists for each of the three default names. -/
def has_default_roles (db : Db) : Bool :=
  default_role_specs.all
    (fun spec => (db.roles.find? (fun r => r.name == spec.1)).isSome)

end AuthService

namespace RoleService

/-- RoleService.create_role (services/auth_service.py lines 263-287);
`permissions or {}` defaults a missing map to the empty map. -/
def create_role (db : Db) (name : String) (description : Option String)
    (permissions : Option Permissions) : RoleResult × Db :=
  match db.roles.find? (fun r => r.name == name) with
  | some _ => (.err "Role already exists", db)
  | none =>
    let role : Role :=
      { id := db.next_id
        name := name
        description := description
        permissions := permissions.getD [] }
    (.ok role, { db with roles := db.roles ++ [role], next_id := db.next_id + 1 })

/-- RoleService.assign_role_to_user (services/auth_service.py lines
300-328). -/
def assign_role_to_user (db : Db) (user_id role_id : Nat) (now : Nat) :
    SimpleResult × Db :=
  match db.users.find? (fun u => u.id == user_id) with
  | none => (.err "User not found", db)
  | some _ =>
    match db.roles.find? (fun r => r.id == role_id) with
    | none => (.err "Role not found", db)
    | some _ =>
      match db.user_roles.find? (fun ur =>
          ur.user_id == user_id && ur.role_id == role_id) with
      | some _ => (.err "User already has this role", db)
      | none =>
        (.ok "Role assigned successfully",
          { db with user_roles := db.user_roles ++ [⟨user_id, role_id, now⟩] })

/-- RoleService.remove_role_from_user (services/auth_service.py lines
330-348): deletes the fetched assignment row. -/
def remove_role_from_user (db : Db) (user_id role_id : Nat) :
    SimpleResult × Db :=
  match db.user_roles.find? (fun ur =>
      ur.user_id == user_id && ur.role_id == role_id) with
  | none => (.err "User does not have this role", db)
  | some _ =>
    (.ok "Role removed successfully",
      { db with
        user_roles := db.user_roles.eraseP (fun ur =>
            ur.user_id == user_id && ur.role_id == role_id) })

end RoleService

namespace Schemas

/-- Model of Python str.isalnum: nonempty and every character
alphanumeric. -/
def py_isalnum (s : String) : Bool :=
  !s.isEmpty && s.toList.all Char.isAlphanum

/-- Model of Python str.lower: lowercase every character. -/
def py_lower (s : String) : String :=
  String.mk (s.data.map Char.toLower)

/-- RoleCreateSchema.validate_name (schemas/auth.py lines 124-128):
reject unless the name with underscores and hyphens removed is
alphanumeric, then normalize to lowercase. -/
def validate_role_name (v : String) : Option String :=
  if !(py_isalnum (String.mk (v.toList.filter
      (fun c => !(c == '_') && !(c == '-'))))) then
    none
  else
    some (py_lower v)

/-- Validated payload of RoleCreateSchema. -/
structure RoleCreate where
  name : String
  description : Option String := none
  permissions : Permissions := []
deriving DecidableEq, Repr

/-- RoleCreateSchema validation: the Field length bounds on `name`
together with validate_name. -/
def validate_role_create (name : String) (description : Option String)
    (permissions : Permissions) : Option RoleCreate :=
  if name.length < 1 || name.length > 100 then none
  else
    match validate_role_name name with
    | none => none
    | some n => some { name := n, description := description,
                       permissions := permissions }

end Schemas

/-- HTTP response of a route: status code and optional error body. -/
structure HttpResponse where
  status : Nat
  error : Option String := none
deriving DecidableEq, Repr

/-- Claims of the presented access token as read by `get_jwt()`:
identity plus the `roles` claim (defaulted to the empty list). -/
structure JwtClaims where
  sub : Nat
  roles : List String := []
deriving DecidableEq, Repr

namespace routes

/-- Route POST /roles (routes/auth.py lines 192-227): admin gate, body
presence, schema validation, then RoleService.create_role. -/
def create_role (db : Db) (claims : JwtClaims)
    (data : Option (String × Option String × Permissions)) :
    HttpResponse × Db :=
  if !(claims.roles.contains "admin") then
    ({ status := 403, error := some "Insufficient permissions" }, db)
  else
    match data with
    | none => ({ status := 400, error := some "No data provided" }, db)
    | some (name, description, permissions) =>
      match Schemas.validate_role_create name description permissions with
      | none => ({ status := 400, error := some "Validation failed" }, db)
      | some role_data =>
        match RoleService.create_role db role_data.name role_data.description
            (some role_data.permissions) with
        | (.ok _, db1) => ({ status := 201 }, db1)
        | (.err e, db1) => ({ status := 400, error := some e }, db1)

/-- Route POST /users/user_id/roles/role_id (routes/auth.py lines
230-250): admin gate, then RoleService.assign_role_to_user. -/
def assign_role_to_user (db : Db) (claims : JwtClaims)
    (user_id role_id : Nat) (now : Nat) : HttpResponse × Db :=
  if !(claims.roles.contains "admin") then
    ({ status := 403, error := some "Insufficient permissions" }, db)
  else
    match RoleService.assign_role_to_user db user_id role_id now with
    | (.ok _, db1) => ({ status := 200 }, db1)
    | (.err e, db1) => ({ status := 400, error := some e }, db1)

/-- Route DELETE /users/user_id/roles/role_id (routes/auth.py lines
253-273): admin gate, then RoleService.remove_role_from_user. -/
def remove_role_from_user (db : Db) (claims : JwtClaims)
    (user_id role_id : Nat) : HttpResponse × Db :=
  if !(claims.roles.contains "admin") then
    ({ status := 403, error := some "Insufficient permissions" }, db)
  else
    match RoleService.remove_role_from_user db user_id role_id with
    | (.ok _, db1) => ({ status := 200 }, db1)
    | (.err e, db1) => ({ status := 400, error := some e }, db1)

end routes

/-! Helper lemmas about `updateFirst` and `find?`. -/

theorem updateFirst_find?_same {α} {p : α → Bool} {f : α → α} {l : List α}
    {a : α} (h : l.find? p = some a) (hf : p (f a) = true) :
    (updateFirst p f l).find? p = some (f a) := by
  induction l with
  | nil => simp [List.find?] at h
  | cons x xs ih =>
    cases hx : p x with
    | true =>
      simp [List.find?, hx] at h
      subst h
      simp [updateFirst, hx, List.find?, hf]
    | false =>
      simp [List.find?, hx] at h
      simp [updateFirst, hx, List.find?, ih h]

/-! Sample store elements used by the concrete witnesses below. -/

/-- Empty store. -/
def dbEmpty : Db := {}

/-- Standard sample user, id 0, active, password "Current1". -/
def userW : User :=
  { id := 0, email := "w@example.com", username := "w",
    password_hash := bcrypt_hashpw "Current1" }

/-- Sample store holding only `userW`. -/
def dbW : Db := { users := [userW], next_id := 1 }

/-!  ### C2 — refresh-token validity boundary -/

/-- Concrete refresh-token row expiring at time 100, not revoked. -/
def rowC2 : RefreshToken :=
  { user_id := 0, token_hash := ⟨0, 0⟩, expires_at := 100 }

/-- C2 counterexample: the claim says a token is valid iff not revoked
and `now < expires_at`, hence invalid at the instant `now = expires_at`;
but the code (is_expired uses strict `now > expires_at`) still accepts
`rowC2` at `now = 100 = expires_at`. -/
theorem c2_counterexample :
    ¬(rowC2.is_valid 100 = true ↔
      (rowC2.is_revoked = false ∧ 100 < rowC2.expires_at)) := by
  decide

/-- C2 amended: a stored refresh token is valid iff it is not revoked
and `now ≤ expires_at`; validation fails whenever `now > expires_at` and
whenever the row is revoked, and at the instant `now = expires_at` the
token is still valid. -/
theorem c2_validity_boundary (t : RefreshToken) (now : Nat) :
    t.is_valid now = true ↔ (t.is_revoked = false ∧ now ≤ t.expires_at) := by
  simp [RefreshToken.is_valid, RefreshToken.is_expired, Nat.not_lt]

/-- C2 witness: the amended validity criterion evaluated on `rowC2` at
time 100 (the boundary instant) and refuted on a revoked row. -/
theorem c2_validity_boundary_witness :
    rowC2.is_valid 100 = true ∧
    ({ rowC2 with is_revoked := true } : RefreshToken).is_valid 50 = false := by
  constructor
  · exact (c2_validity_boundary rowC2 100).mpr (by decide)
  · cases hv : ({ rowC2 with is_revoked := true } : RefreshToken).is_valid 50 with
    | false => rfl
    | true =>
      have := ((c2_validity_boundary { rowC2 with is_revoked := true } 50).mp hv).1
      simp at this

/-!  ### C4 — uniform login failure -/

/-- C4: an attempt with an unknown email and an attempt with a known
email but wrong password yield the same error result with the store
unchanged, so the response does not reveal whether the email exists. -/
theorem c4_uniform_login_failure (db1 db2 : Db) (ld1 ld2 : LoginRequest)
    (u : User) (now1 now2 : Nat)
    (h1 : db1.users.find? (fun v => v.email == ld1.email) = none)
    (h2 : db2.users.find? (fun v => v.email == ld2.email) = some u)
    (h3 : u.check_password ld2.password = false) :
    AuthService.authenticate_user db1 ld1 now1 =
      (.err "Invalid email or password", db1) ∧
    AuthService.authenticate_user db2 ld2 now2 =
      (.err "Invalid email or password", db2) := by
  constructor
  · simp [AuthService.authenticate_user, h1]
  · simp [AuthService.authenticate_user, h2, h3]

/-- C4 witness: unknown email on the empty store versus wrong password
for `userW`. -/
theorem c4_uniform_login_failure_witness :
    AuthService.authenticate_user dbEmpty ⟨"w@example.com", "Current1"⟩ 3 =
      (.err "Invalid email or password", dbEmpty) ∧
    AuthService.authenticate_user dbW ⟨"w@example.com", "WrongPass9"⟩ 3 =
      (.err "Invalid email or password", dbW) :=
  c4_uniform_login_failure dbEmpty dbW ⟨"w@example.com", "Current1"⟩
    ⟨"w@example.com", "WrongPass9"⟩ userW 3 3 (by decide) (by decide) (by decide)

/-!  ### C5 — role-admin operations gated on the admin claim -/

/-- C5: each of the three role-admin routes, invoked with claims lacking
the `admin` role, answers 403 with no store mutation. -/
theorem c5_admin_gate (db : Db) (claims : JwtClaims)
    (data : Option (String × Option String × Permissions))
    (user_id role_id now : Nat)
    (h : claims.roles.contains "admin" = false) :
    routes.create_role db claims data =
      ({ status := 403, error := some "Insufficient permissions" }, db) ∧
    routes.assign_role_to_user db claims user_id role_id now =
      ({ status := 403, error := some "Insufficient permissions" }, db) ∧
    routes.remove_role_from_user db claims user_id role_id =
      ({ status := 403, error := some "Insufficient permissions" }, db) := by
  have h' : ¬("admin" ∈ claims.roles) := by simpa using h
  refine ⟨?_, ?_, ?_⟩ <;>
    simp [routes.create_role, routes.assign_role_to_user,
      routes.remove_role_from_user, h, h']

/-- Claims of a non-admin caller. -/
def claimsC5 : JwtClaims := { sub := 7, roles := ["user"] }

/-- C5 witness: the gate evaluated for a caller holding only the `user`
role. -/
theorem c5_admin_gate_witness :
    routes.create_role dbW claimsC5 (some ("ops", none, [])) =
      ({ status := 403, error := some "Insufficient permissions" }, dbW) ∧
    routes.assign_role_to_user dbW claimsC5 0 0 9 =
      ({ status := 403, error := some "Insufficient permissions" }, dbW) ∧
    routes.remove_role_from_user dbW claimsC5 0 0 =
      ({ status := 403, error := some "Insufficient permissions" }, dbW) :=
  c5_admin_gate dbW claimsC5 (some ("ops", none, [])) 0 0 9 (by decide)

/-!  ### C7 — has_permission is key membership, not action membership -/

/-- Role whose permission map has category "users" with action list
["create", "read"]. -/
def roleC7 : Role :=
  { id := 0, name := "worker", permissions := [("users", ["create", "read"])] }

/-- User holding `roleC7`. -/
def userC7 : User :=
  { id := 1, email := "c7@example.com", username := "c7", password_hash := "" }

/-- Store joining `userC7` to `roleC7`. -/
def dbC7 : Db :=
  { users := [userC7], roles := [roleC7], user_roles := [⟨1, 0, 0⟩],
    next_id := 2 }

/-- C7 counterexample: the claim states has_permission p is true iff
some category's ACTION LIST contains p; on `dbC7` the action list of
category "users" contains "create", yet has_permission "create" is
false (the code tests membership among the dict keys). -/
theorem c7_counterexample :
    ¬(dbC7.has_permission userC7 "create" = true ↔
      ∃ role ∈ dbC7.get_roles userC7, ∃ kv ∈ role.permissions,
        "create" ∈ kv.2) := by
  decide

/-- C7 amended: has_permission p is true iff some role of the user has a
permission map containing p among its category KEYS (flat membership on
keys), regardless of the action lists. -/
theorem c7_has_permission_keys (db : Db) (u : User) (p : String) :
    db.has_permission u p = true ↔
      ∃ role ∈ db.get_roles u, ∃ kv ∈ role.permissions, kv.1 = p := by
  simp [Db.has_permission, List.any_eq_true, beq_iff_eq]

/-- C7 witness: the key-membership criterion evaluated on `dbC7` with
the category key "users". -/
theorem c7_has_permission_keys_witness :
    dbC7.has_permission userC7 "users" = true :=
  (c7_has_permission_keys dbC7 userC7 "users").mpr
    ⟨roleC7, by decide, ("users", ["create", "read"]), by decide, rfl⟩

/-!  ### C10 — refresh binds the stored row to the token subject -/

/-- C10: when a stored row matches the presented token's hash but not
its decoded subject (and no row matches both), refresh_access_token
rejects with the invalid-token error and the store is unchanged. -/
theorem c10_subject_binding (db : Db) (tok : JwtToken) (now : Nat)
    (_hmismatch : ∃ r ∈ db.refresh_tokens,
      r.token_hash = sha256_hexdigest tok ∧ r.user_id ≠ tok.sub)
    (hall : ∀ r ∈ db.refresh_tokens,
      r.token_hash = sha256_hexdigest tok → r.user_id ≠ tok.sub) :
    AuthService.refresh_access_token db tok now =
      (.err "Invalid or expired refresh token", db) := by
  have hnone : db.refresh_tokens.find? (fun r =>
      r.user_id == tok.sub && r.token_hash == sha256_hexdigest tok) = none := by
    rw [List.find?_eq_none]
    intro r hr
    simp only [Bool.and_eq_true, beq_iff_eq, not_and]
    intro hu hh
    exact absurd hu (hall r hr hh)
  simp [AuthService.refresh_access_token, hnone]

/-- Stored row for user 1 whose hash matches `tokC10`. -/
def rowC10 : RefreshToken :=
  { user_id := 1, token_hash := ⟨0, 5⟩, expires_at := 1000 }

/-- Token decoded to subject 0 with jti 5. -/
def tokC10 : JwtToken := ⟨0, 5⟩

/-- Store for the C10 witness. -/
def dbC10 : Db := { refresh_tokens := [rowC10] }

/-- C10 witness: the mismatched row is rejected. -/
theorem c10_subject_binding_witness :
    AuthService.refresh_access_token dbC10 tokC10 50 =
      (.err "Invalid or expired refresh token", dbC10) :=
  c10_subject_binding dbC10 tokC10 50 (by decide) (by decide)

/-!  ### C1 — refresh-token rotation is single-use -/

/-- C1: from any store holding a valid stored row for the presented
token `tok`, with an active user behind it and `tok` minted earlier than
the next fresh jti, the first refresh succeeds with a new refresh token
distinct from `tok` and leaves the stored row for `tok` revoked; the
second refresh with the same `tok` fails with the invalid-token error
and changes nothing. -/
theorem c1_refresh_rotation (db : Db) (tok : JwtToken) (now now2 : Nat)
    (r : RefreshToken) (u : User)
    (hfind : db.refresh_tokens.find? (fun row =>
        row.user_id == tok.sub && row.token_hash == sha256_hexdigest tok) =
      some r)
    (hvalid : r.is_valid now = true)
    (huser : db.users.find? (fun v => v.id == tok.sub) = some u)
    (hactive : u.is_active = true)
    (hfresh : tok.jti < db.next_jti) :
    ∃ at1 t1 db1,
      AuthService.refresh_access_token db tok now = (.ok at1 t1, db1) ∧
      t1 ≠ tok ∧
      db1.refresh_tokens.find? (fun row =>
          row.user_id == tok.sub && row.token_hash == sha256_hexdigest tok) =
        some { r with is_revoked := true } ∧
      AuthService.refresh_access_token db1 tok now2 =
        (.err "Invalid or expired refresh token", db1) := by
  have hp0 := List.find?_some hfind
  have hrevoked :
      (updateFirst (fun row : RefreshToken =>
          row.user_id == tok.sub && row.token_hash == sha256_hexdigest tok)
        RefreshToken.revoke db.refresh_tokens).find? (fun row =>
          row.user_id == tok.sub && row.token_hash == sha256_hexdigest tok) =
        some { r with is_revoked := true } :=
    updateFirst_find?_same hfind (by simpa [RefreshToken.revoke] using hp0)
  refine ⟨create_access_token db u db.next_jti, ⟨u.id, db.next_jti + 1⟩,
    { db with
      refresh_tokens := updateFirst (fun row =>
          row.user_id == tok.sub && row.token_hash == sha256_hexdigest tok)
        RefreshToken.revoke db.refresh_tokens ++
        [{ user_id := u.id,
           token_hash := sha256_hexdigest ⟨u.id, db.next_jti + 1⟩,
           expires_at := now + 7 * 86400, created_at := now }],
      next_jti := db.next_jti + 2 }, ?_, ?_, ?_, ?_⟩
  · simp [AuthService.refresh_access_token, hfind, hvalid, huser, hactive]
  · intro hcontra
    have : db.next_jti + 1 = tok.jti := congrArg JwtToken.jti hcontra
    omega
  · simp [List.find?_append, hrevoked]
  · have hinvalid :
        RefreshToken.is_valid { r with is_revoked := true } now2 = false := by
      simp [RefreshToken.is_valid]
    simp [AuthService.refresh_access_token, List.find?_append, hrevoked,
      hinvalid]

/-- JWT refresh token for user 0 with jti 0, as stored at login. -/
def tokC1 : JwtToken := ⟨0, 0⟩

/-- Stored row for `tokC1`, unexpired at time 5, not revoked. -/
def rowC1 : RefreshToken :=
  { user_id := 0, token_hash := tokC1, expires_at := 700000 }

/-- Store for the C1 witness: `userW` logged in, holding `rowC1`. -/
def dbC1 : Db :=
  { users := [userW], refresh_tokens := [rowC1], next_id := 1, next_jti := 2 }

/-- C1 witness: the rotation contract evaluated on `dbC1`. -/
theorem c1_refresh_rotation_witness :
    ∃ at1 t1 db1,
      AuthService.refresh_access_token dbC1 tokC1 5 = (.ok at1 t1, db1) ∧
      t1 ≠ tokC1 ∧
      db1.refresh_tokens.find? (fun row =>
          row.user_id == tokC1.sub &&
            row.token_hash == sha256_hexdigest tokC1) =
        some { rowC1 with is_revoked := true } ∧
      AuthService.refresh_access_token db1 tokC1 6 =
        (.err "Invalid or expired refresh token", db1) :=
  c1_refresh_rotation dbC1 tokC1 5 6 rowC1 userW (by decide) (by decide)
    (by decide) (by decide) (by decide)

/-!  ### C9 — password change never touches refresh tokens -/

/-- C9: update_user_password leaves every stored refresh token
untouched in all cases; on the user-missing and wrong-current-password
failures the whole store is unchanged, and on success the only change
is the target user's password hash and updated_at. -/
theorem c9_password_change_frame (db : Db) (user_id : Nat)
    (current_password new_password : String) (now : Nat) :
    (AuthService.update_user_password db user_id current_password
        new_password now).2.refresh_tokens = db.refresh_tokens ∧
    (∀ e, (AuthService.update_user_password db user_id current_password
        new_password now).1 = .err e →
      (AuthService.update_user_password db user_id current_password
        new_password now).2 = db) ∧
    (∀ m, (AuthService.update_user_password db user_id current_password
        new_password now).1 = .ok m →
      ∃ u, db.users.find? (fun v => v.id == user_id) = some u ∧
        u.check_password current_password = true ∧
        (AuthService.update_user_password db user_id current_password
          new_password now).2 =
          { db with
            users := updateFirst (fun v => v.id == user_id)
              (fun v => { v.set_password new_password with updated_at := now })
              db.users }) := by
  cases hfind : db.users.find? (fun v => v.id == user_id) with
  | none =>
    refine ⟨?_, ?_, ?_⟩ <;>
      simp [AuthService.update_user_password, hfind]
  | some u =>
    cases hpw : u.check_password current_password with
    | false =>
      refine ⟨?_, ?_, ?_⟩ <;>
        simp [AuthService.update_user_password, hfind, hpw]
    | true =>
      refine ⟨?_, ?_, ?_⟩ <;>
        simp [AuthService.update_user_password, hfind, hpw]

/-- C9 witness: on `dbW` a successful change rewrites only the stored
user row, and a wrong current password leaves the store unchanged. -/
theorem c9_password_change_frame_witness :
    (AuthService.update_user_password dbW 0 "Current1" "NewPass1"
        9).2.refresh_tokens = dbW.refresh_tokens ∧
    (AuthService.update_user_password dbW 0 "Wrong111" "NewPass1" 9).2 =
      dbW ∧
    (∃ u, dbW.users.find? (fun v => v.id == 0) = some u ∧
      u.check_password "Current1" = true ∧
      (AuthService.update_user_password dbW 0 "Current1" "NewPass1" 9).2 =
        { dbW with
          users := updateFirst (fun v => v.id == 0)
            (fun v => { v.set_password "NewPass1" with updated_at := 9 })
            dbW.users }) :=
  ⟨(c9_password_change_frame dbW 0 "Current1" "NewPass1" 9).1,
   (c9_password_change_frame dbW 0 "Wrong111" "NewPass1" 9).2.1
     "Current password is incorrect" (by decide),
   (c9_password_change_frame dbW 0 "Current1" "NewPass1" 9).2.2
     "Password updated successfully" (by decide)⟩

/-!  ### C3 — registration conflicts and success -/

/-- User holding the username "bob", stored first. -/
def userBobC3 : User :=
  { id := 0, email := "bob@example.com", username := "bob",
    password_hash := "" }

/-- User holding the email the request will ask for, stored second. -/
def userAliceC3 : User :=
  { id := 1, email := "alice@example.com", username := "alice",
    password_hash := "" }

/-- Store for the C3 counterexample. -/
def dbC3 : Db := { users := [userBobC3, userAliceC3], next_id := 2 }

/-- Registration request whose email is taken by `userAliceC3` and whose
username is taken by `userBobC3`. -/
def udC3 : UserCreate :=
  { email := "alice@example.com", username := "bob", password := "Secret1x" }

/-- C3 counterexample: the claim says register_user reports the
email-conflict error whenever the email is taken; on `dbC3` the email of
`udC3` is taken, yet the OR-query returns the username holder first and
the username-conflict error is reported. -/
theorem c3_counterexample :
    (AuthService.register_user dbC3 udC3 0).1 = .err "Username already taken" ∧
    (∃ u ∈ dbC3.users, u.email = udC3.email) := by
  decide

/-- C3 amended: on conflict the reported error follows the FIRST user
matched by the email-or-username query — the email-conflict error iff
that user's email equals the requested one (so email is preferred when a
single user holds both) — and the store is unchanged; on success exactly
one user is created and the `user` default role is assigned when it
exists, silently skipped when missing. -/
theorem c3_register_conflict_and_success (db : Db) (ud : UserCreate)
    (now : Nat) :
    (∀ ex, db.users.find? (fun v =>
        v.email == ud.email || v.username == ud.username) = some ex →
      AuthService.register_user db ud now =
        (if ex.email == ud.email then (.err "Email already registered", db)
         else (.err "Username already taken", db))) ∧
    (db.users.find? (fun v =>
        v.email == ud.email || v.username == ud.username) = none →
      ∃ user : User,
        user = { id := db.next_id, email := ud.email, username := ud.username,
                 password_hash := bcrypt_hashpw ud.password,
                 first_name := ud.first_name, last_name := ud.last_name,
                 created_at := now, updated_at := now } ∧
        (AuthService.register_user db ud now).1 = .ok user ∧
        (AuthService.register_user db ud now).2.users = db.users ++ [user] ∧
        (AuthService.register_user db ud now).2.roles = db.roles ∧
        (AuthService.register_user db ud now).2.refresh_tokens =
          db.refresh_tokens ∧
        (AuthService.register_user db ud now).2.user_roles =
          db.user_roles ++
            (match db.roles.find? (fun r => r.name == "user") with
             | some dr => [⟨db.next_id, dr.id, now⟩]
             | none => [])) := by
  constructor
  · intro ex hex
    cases hcmp : ex.email == ud.email <;>
      simp [AuthService.register_user, hex, hcmp]
  · intro hnone
    refine ⟨_, rfl, ?_, ?_, ?_, ?_, ?_⟩ <;>
      cases hrole : db.roles.find? (fun r => r.name == "user") <;>
        simp [AuthService.register_user, hnone, hrole]

/-- Conflicting request for the C3 witness: email taken by `userBobC3`. -/
def udConfC3 : UserCreate :=
  { email := "bob@example.com", username := "newguy", password := "Secret1x" }

/-- Fresh request for the C3 witness success case. -/
def udNewC3 : UserCreate :=
  { email := "new@example.com", username := "newbie", password := "Secret1x" }

/-- C3 witness: email conflict reported on `dbC3`, and a successful
registration on the empty store (default role missing, assignment
silently skipped). -/
theorem c3_register_conflict_and_success_witness :
    AuthService.register_user dbC3 udConfC3 0 =
      (.err "Email already registered", dbC3) ∧
    (∃ user : User,
      user = { id := dbEmpty.next_id, email := udNewC3.email,
               username := udNewC3.username,
               password_hash := bcrypt_hashpw udNewC3.password,
               first_name := udNewC3.first_name,
               last_name := udNewC3.last_name,
               created_at := 4, updated_at := 4 } ∧
      (AuthService.register_user dbEmpty udNewC3 4).1 = .ok user ∧
      (AuthService.register_user dbEmpty udNewC3 4).2.users =
        dbEmpty.users ++ [user] ∧
      (AuthService.register_user dbEmpty udNewC3 4).2.roles = dbEmpty.roles ∧
      (AuthService.register_user dbEmpty udNewC3 4).2.refresh_tokens =
        dbEmpty.refresh_tokens ∧
      (AuthService.register_user dbEmpty udNewC3 4).2.user_roles =
        dbEmpty.user_roles ++
          (match dbEmpty.roles.find? (fun r => r.name == "user") with
           | some dr => [⟨dbEmpty.next_id, dr.id, 4⟩]
           | none => [])) := by
  constructor
  · simpa using
      (c3_register_conflict_and_success dbC3 udConfC3 0).1 userBobC3 (by decide)
  · exact (c3_register_conflict_and_success dbEmpty udNewC3 4).2 (by decide)

/-!  ### C6 — create_default_roles is idempotent -/

theorem seed_roles_of_present
    (specs : List (String × String × Permissions)) (db : Db)
    (h : ∀ spec ∈ specs, (db.roles.find? (fun r => r.name == spec.1)).isSome) :
    AuthService.seed_roles specs db = db := by
  induction specs with
  | nil => rfl
  | cons s rest ih =>
    obtain ⟨a, ha⟩ := Option.isSome_iff_exists.mp (h s (by simp))
    simp only [AuthService.seed_roles, ha]
    exact ih (fun sp hsp => h sp (List.mem_cons_of_mem _ hsp))

theorem seed_roles_mono (specs : List (String × String × Permissions))
    (db : Db) (p : Role → Bool) (h : (db.roles.find? p).isSome) :
    ((AuthService.seed_roles specs db).roles.find? p).isSome := by
  induction specs generalizing db with
  | nil => exact h
  | cons s rest ih =>
    cases hfind : db.roles.find? (fun r => r.name == s.1) with
    | some a =>
      simp only [AuthService.seed_roles, hfind]
      exact ih db h
    | none =>
      simp only [AuthService.seed_roles, hfind]
      apply ih
      obtain ⟨a, ha⟩ := Option.isSome_iff_exists.mp h
      simp [List.find?_append, ha]

theorem seed_roles_present (specs : List (String × String × Permissions))
    (db : Db) :
    ∀ spec ∈ specs,
      ((AuthService.seed_roles specs db).roles.find?
        (fun r => r.name == spec.1)).isSome := by
  induction specs generalizing db with
  | nil => simp
  | cons s rest ih =>
    intro sp hsp
    cases hfind : db.roles.find? (fun r => r.name == s.1) with
    | some a =>
      simp only [AuthService.seed_roles, hfind]
      rcases List.mem_cons.mp hsp with rfl | hmem
      · exact seed_roles_mono rest db _ (by rw [hfind]; rfl)
      · exact ih db sp hmem
    | none =>
      simp only [AuthService.seed_roles, hfind]
      rcases List.mem_cons.mp hsp with rfl | hmem
      · apply seed_roles_mono
        simp [List.find?_append, hfind]
      · exact ih _ sp hmem

/-- C6: create_default_roles inserts and overwrites nothing when the
three default role names already exist (in particular a modified
permission map survives a re-run untouched), a second run is always a
no-op, and seeding the empty store twice yields exactly 3 roles. -/
theorem c6_create_default_roles_idempotent (db : Db) :
    (AuthService.has_default_roles db = true →
      (AuthService.create_default_roles db).2 = db) ∧
    (AuthService.create_default_roles
        (AuthService.create_default_roles db).2).2 =
      (AuthService.create_default_roles db).2 ∧
    (AuthService.create_default_roles
        (AuthService.create_default_roles dbEmpty).2).2.roles.length = 3 := by
  refine ⟨?_, ?_, by decide⟩
  · intro h
    have h' := List.all_eq_true.mp h
    exact seed_roles_of_present _ db (fun sp hsp => by simpa using h' sp hsp)
  · exact seed_roles_of_present _ _
      (fun sp hsp => seed_roles_present _ db sp hsp)

/-- Store already holding the three default names, with the permission
map of the `user` role modified away from the seed's value. -/
def dbC6 : Db :=
  { roles :=
      [ { id := 0, name := "admin" },
        { id := 1, name := "user", permissions := [("custom", ["x"])] },
        { id := 2, name := "analyst" } ],
    next_id := 3 }

/-- C6 witness: re-running the seed on `dbC6` changes nothing, keeping
the modified permissions. -/
theorem c6_create_default_roles_idempotent_witness :
    (AuthService.create_default_roles dbC6).2 = dbC6 :=
  (c6_create_default_roles_idempotent dbC6).1 (by decide)

/-!  ### C8 — create_role conflicts are case-insensitive via
normalization -/

/-- C8: when the requested name passes RoleCreateSchema validation
(which normalizes it to lowercase) and every stored role name is already
lowercase — the invariant the schema maintains — create_role fails with
the Conflict error exactly when some stored role's name equals the
request up to letter case, leaving the store unchanged; otherwise it
persists and returns exactly one role carrying the normalized name, the
given description, and the given permissions, the permission map
defaulting to empty when none is given. -/
theorem c8_create_role_case_insensitive (db : Db) (name nrm : String)
    (description : Option String) (permissions : Permissions)
    (hv : Schemas.validate_role_name name = some nrm)
    (hlow : ∀ r ∈ db.roles, Schemas.py_lower r.name = r.name) :
    ((∃ r ∈ db.roles, Schemas.py_lower r.name = Schemas.py_lower name) →
      RoleService.create_role db nrm description (some permissions) =
        (.err "Role already exists", db)) ∧
    ((∀ r ∈ db.roles, Schemas.py_lower r.name ≠ Schemas.py_lower name) →
      ∃ role : Role,
        role = { id := db.next_id, name := Schemas.py_lower name,
                 description := description, permissions := permissions } ∧
        RoleService.create_role db nrm description (some permissions) =
          (.ok role,
           { db with roles := db.roles ++ [role],
                     next_id := db.next_id + 1 })) ∧
    RoleService.create_role db nrm description none =
      RoleService.create_role db nrm description (some []) := by
  have hnrm : nrm = Schemas.py_lower name := by
    unfold Schemas.validate_role_name at hv
    split at hv
    · exact absurd hv (by simp)
    · exact (Option.some.inj hv).symm
  subst hnrm
  refine ⟨?_, ?_, rfl⟩
  · rintro ⟨r0, hmem, heq⟩
    have hsome : (db.roles.find? (fun r => r.name == Schemas.py_lower name)).isSome := by
      rw [List.find?_isSome]
      exact ⟨r0, hmem, by rw [beq_iff_eq, ← hlow r0 hmem]; exact heq⟩
    obtain ⟨a, ha⟩ := Option.isSome_iff_exists.mp hsome
    simp [RoleService.create_role, ha]
  · intro hall
    have hnone : db.roles.find? (fun r => r.name == Schemas.py_lower name) = none := by
      rw [List.find?_eq_none]
      intro r hr
      simp only [beq_iff_eq]
      intro hcontra
      exact hall r hr ((hlow r hr).trans hcontra)
    exact ⟨_, rfl, by simp [RoleService.create_role, hnone]⟩

/-- Store for the C8 witness, holding a lowercase role named admin. -/
def dbC8 : Db := { roles := [{ id := 0, name := "admin" }], next_id := 1 }

/-- C8 witness: creating "Admin" (normalized "admin") conflicts with the
stored role, and creating "Reporter" (normalized "reporter") succeeds. -/
theorem c8_create_role_case_insensitive_witness :
    RoleService.create_role dbC8 (Schemas.py_lower "Admin") none (some []) =
      (.err "Role already exists", dbC8) ∧
    (∃ role : Role,
      role = { id := dbC8.next_id, name := Schemas.py_lower "Reporter",
               description := none, permissions := [] } ∧
      RoleService.create_role dbC8 (Schemas.py_lower "Reporter") none (some []) =
        (.ok role,
         { dbC8 with roles := dbC8.roles ++ [role],
                     next_id := dbC8.next_id + 1 })) := by
  constructor
  · exact (c8_create_role_case_insensitive dbC8 "Admin" (Schemas.py_lower "Admin")
        none [] (by decide) (by decide)).1
      ⟨{ id := 0, name := "admin" }, by decide, by decide⟩
  · exact (c8_create_role_case_insensitive dbC8 "Reporter"
        (Schemas.py_lower "Reporter") none [] (by decide) (by decide)).2.1 (by decide)

end UserService
